import Mathlib

set_option maxHeartbeats 1000000

/-!
Shallow embedding of the transcription-request orchestrator of `src/app.py`
(a Streamlit + Whisper transcription tool), with proofs of the spec claims.

Modelling choices:
* Python floats are modelled by `ℚ`; every numeric input appearing in the
  claims is exactly representable in binary floating point, where the two
  models agree.
* The filesystem is the list of currently existing paths.
* Streamlit UI calls are modelled as an event trace (`Ev`).
* The two fallible external steps (`whisper.load_model` and
  `Model.transcribe`) are parameters returning `Except String _`; an
  `error e` is a raised exception whose `str` is `e`.
-/

/-- Decimal digits of `n`, most significant first, exactly as Python's
`str`/`format` renders a non-negative integer.  `fuel` bounds the recursion;
`fuel = n` always suffices (a number has at most `n` digits). -/
def natDigitsAux : Nat → Nat → List Char
  | 0, n => [Nat.digitChar n]
  | fuel + 1, n =>
    if n < 10 then [Nat.digitChar n]
    else natDigitsAux fuel (n / 10) ++ [Nat.digitChar (n % 10)]

/-- Python `str(n)` for a natural number. -/
def natRepr (n : Nat) : String := String.mk (natDigitsAux n n)

/-- Python `str(i)` for an integer. -/
def intRepr (i : Int) : String :=
  if i < 0 then ("-") ++ natRepr i.natAbs else natRepr i.toNat

/-- Python `f"{i:02d}"`: zero-pad the decimal rendering to width 2. -/
def pad2 (i : Int) : String :=
  let s := intRepr i
  if s.length < 2 then ("0") ++ s else s

/-- Zero-pad the decimal rendering of `n` to width 3 (the fractional part of
Python's `f"{s:06.3f}"`). -/
def pad3 (n : Nat) : String :=
  let s := natRepr n
  if s.length < 3 then String.mk (List.replicate (3 - s.length) '0') ++ s else s

/-- Round to the nearest integer, ties to even — the rounding used by
Python's fixed-point float formatting. -/
def rndHE (q : ℚ) : Int :=
  let f := ⌊q⌋
  let r := q - (f : ℚ)
  if r < 1/2 then f
  else if 1/2 < r then f + 1
  else if f % 2 = 0 then f else f + 1

/-- Python `f"{s:06.3f}"`: fixed 3 decimal places, zero-padded to total
width 6.  (The float negative-zero rendering `-0.000` has no `ℚ`
counterpart; no claim involves negative offsets.) -/
def fmt63 (s : ℚ) : String :=
  let t := rndHE (s * 1000)
  if t < 0 then
    ("-") ++ natRepr (t.natAbs / 1000) ++ (".") ++ pad3 (t.natAbs % 1000)
  else
    pad2 (t / 1000) ++ (".") ++ pad3 (t % 1000).toNat

/-- `format_timestamp` from `src/app.py` lines 201–204:
`m, s = divmod(seconds, 60); h, m = divmod(m, 60);`
`return f"{int(h):02d}:{int(m):02d}:{s:06.3f}"`.
Python's float `divmod` is floored division, so `m1 = ⌊seconds/60⌋` and
`h = ⌊m1/60⌋` (`Int.fdiv` is floored integer division); `int(h)`/`int(m)`
truncate values that are already integral. -/
def format_timestamp (seconds : ℚ) : String :=
  let m1 : Int := ⌊seconds / 60⌋
  let s : ℚ := seconds - 60 * (m1 : ℚ)
  let h : Int := Int.fdiv m1 60
  let m : Int := m1 - 60 * h
  pad2 h ++ (":") ++ pad2 m ++ (":") ++ fmt63 s

/-- One segment of the transcription result: `{start, end, text}`.
(`end` is a Lean keyword; the field is named `stop`.) -/
structure Segment where
  start : ℚ
  stop : ℚ
  text : String

/-- One line of the timestamped transcript, from `src/app.py` line 214:
`f"[{start_fmt} --> {end_fmt}] {text}\n"`. -/
def seg_line (sg : Segment) : String :=
  ("[") ++ format_timestamp sg.start ++ (" --> ") ++ format_timestamp sg.stop
    ++ ("] ") ++ sg.text ++ ("\n")

/-- `timestamp_text`, built by `timestamp_text += line` over the segments in
order (`src/app.py` lines 194–214). -/
def timestamp_text (segs : List Segment) : String :=
  segs.foldl (fun acc sg => acc ++ seg_line sg) ("")

/-- In-order concatenation of a list of strings (the shape the spec uses to
describe the timestamped transcript). -/
def concat_lines (l : List String) : String :=
  l.foldr (fun a b => a ++ b) ("")

/-- `src/app.py` lines 172–174: `options = {}`;
`if language_option: options["language"] = language_option`.  The dict is
modelled as an association list; Python string truthiness is `≠ ""`. -/
def build_options (language_option : String) : List (String × String) :=
  if language_option = "" then [] else [(("language"), language_option)]

/-- Python `list.__getitem__(-1)` with a default for the (unreachable)
empty case: the last element of a list. -/
def lastD {α : Type} : List α → α → α
  | [], d => d
  | [a], _ => a
  | _ :: b :: t, d => lastD (b :: t) d

/-- Python `str.split(c)` for a one-character separator, over the character
list of the string. -/
def splitOnCharAux (c : Char) : List Char → List Char → List (List Char)
  | [], acc => [acc.reverse]
  | x :: xs, acc =>
    if x = c then acc.reverse :: splitOnCharAux c xs []
    else splitOnCharAux c xs (x :: acc)

def splitOnChar (c : Char) (l : List Char) : List (List Char) :=
  splitOnCharAux c l []

/-- `src/app.py` line 135: `uploaded_file.name.split('.')[-1].lower()`.
(`Char.toLower` agrees with Python `str.lower` on ASCII; every supported
extension is ASCII.) -/
def file_ext_of (name : String) : String :=
  String.mk ((lastD (splitOnChar '.' name.data) []).map Char.toLower)

/-- The temp-file suffix, `src/app.py` line 158: `suffix=f".{file_ext}"`. -/
def temp_suffix (file_ext : String) : String := (".") ++ file_ext

/-- Step "persist" (`src/app.py` lines 158–160): write the uploaded bytes to
a `NamedTemporaryFile(delete=False, suffix=f".{file_ext}")`.  Modelled from
the spec for the part outside `src/`: the `tempfile` library guarantees a
uniquely named file, modelled by the caller-supplied fresh `base` (the
freshness hypothesis appears in the theorems).  Returns the temp path and
the filesystem after the write. -/
def persist (fs : List String) (base : String) (file_ext : String) :
    String × List String :=
  let tmp := base ++ temp_suffix file_ext
  (tmp, tmp :: fs)

/-- Interleave a separator character between character-list fragments
(Python `'.'.join`). -/
def joinSep (c : Char) : List (List Char) → List Char
  | [] => []
  | [a] => a
  | a :: b :: t => a ++ c :: joinSep c (b :: t)

/-- `os.path.splitext(name)[0]` for a filename with a proper extension
(every accepted upload has one; the leading-dot-only corner of `splitext`
is irrelevant here). -/
def splitext_base (name : String) : String :=
  let parts := splitOnChar '.' name.data
  if parts.length ≤ 1 then name else String.mk (joinSep '.' parts.dropLast)

/-- A loaded Whisper model, `src/app.py` lines 51–55: the load path records
which model was requested and the chosen device. -/
structure WhisperModel where
  name : String
  device : String
deriving DecidableEq

/-- `load_whisper_model` (`src/app.py` lines 51–55) minus the
`@st.cache_resource` wrapper (modelled separately by `get_or_load`):
`device = "cuda" if torch.cuda.is_available() else "cpu"`. -/
def load_whisper_model (cudaAvailable : Bool) (model_name : String) :
    WhisperModel :=
  { name := model_name,
    device := if cudaAvailable then ("cuda") else ("cpu") }

/-- Modelled from the spec: the `@st.cache_resource` decorator on
`load_whisper_model` (its implementation lives in Streamlit, not in
`src/`), per the spec's "process-wide cache keyed by size", resolving a
cached instance and "loading it on first use".  Returns the resolved model,
the new cache state, and whether the underlying load path was invoked. -/
def get_or_load (load : String → WhisperModel)
    (cache : List (String × WhisperModel)) (key : String) :
    WhisperModel × List (String × WhisperModel) × Bool :=
  match cache.lookup key with
  | some m => (m, cache, false)
  | none => let m := load key; (m, (key, m) :: cache, true)

/-- The transcription result dict: `{text, segments}`. -/
structure TResult where
  text : String
  segments : List Segment

/-- `os.unlink`: raises `FileNotFoundError` when the path does not exist. -/
def os_unlink (fs : List String) (p : String) : Except String (List String) :=
  if p ∈ fs then Except.ok (fs.filter (fun q => q != p))
  else Except.error ("FileNotFoundError")

/-- The `finally` block, `src/app.py` lines 238–241:
`if os.path.exists(temp_filename): os.unlink(temp_filename)`.
Returns the unlink outcome (or the unchanged filesystem when the guard is
false) and whether `os.unlink` was invoked. -/
def cleanup (fs : List String) (p : String) :
    Except String (List String) × Bool :=
  if p ∈ fs then (os_unlink fs p, true) else (Except.ok fs, false)

/-- One Streamlit UI call, as an event in the script's trace. -/
inductive Ev where
  | title
  | ffmpegChecked
  | errorMsg (msg : String)
  | stopped
  | selectbox (label : String)
  | info (msg : String)
  | warning (msg : String)
  | fileUploader
  | video
  | audio (format : String)
  | button
  | spinner
  | success (msg : String)
  | textArea (label : String) (text : String)
  | dataframe
  | downloadButton (fileName : String) (data : String)
  | transcribeCall (path : String) (options : List (String × String))
deriving DecidableEq

/-- The error banner of the `except` clause, `src/app.py` line 236:
`st.error(f"❌ エラーが発生しました: {str(e)}")`, modelled as this constant
prefix followed by the exception text. -/
def errHead : String := "❌ エラーが発生しました: "

/-- The success banner of `src/app.py` line 183 (the elapsed-time figures,
being wall-clock readings, are elided from the model). -/
def successMsg : String := "✅ 処理完了！"

/-- `src/app.py` line 60: the fatal banner of `check_ffmpeg`. -/
def ffmpegMissingMsg : String :=
  "⚠️ FFmpegがインストールされていません。https://ffmpeg.org/download.html からダウンロードして、パスを通してください。"

/-- `check_ffmpeg`, `src/app.py` lines 57–61: `exitCode` is the result of
`os.system("ffmpeg -version > NUL 2>&1")`.  On failure it renders the error
banner and `st.stop()` halts the script (second component `true`); on
success the script continues (the `ffmpegChecked` marker records that the
check ran). -/
def check_ffmpeg (exitCode : Int) : List Ev × Bool :=
  if exitCode ≠ 0 then ([Ev.errorMsg ffmpegMissingMsg, Ev.stopped], true)
  else ([Ev.ffmpegChecked], false)

/-- The preview widget choice, `src/app.py` lines 144–147:
`if file_ext in ['mp4', 'mov', 'mkv', 'webm']: st.video(...)`
`else: st.audio(..., format=f"audio/{file_ext}")`. -/
def preview_events (file_ext : String) : List Ev :=
  if file_ext ∈ [("mp4"), ("mov"), ("mkv"), ("webm")] then [Ev.video]
  else [Ev.audio (("audio/") ++ file_ext)]

/-- The `try` body of `src/app.py` lines 162–236 as an event list, given the
temp path and the outcomes of the two fallible external steps.  `loadR mo`
is the outcome of `load_whisper_model(model_option)` and
`transR model path opts` the outcome of `model.transcribe(path, **opts)`;
an `error e` is a raised exception with text `e`, turned into the error
banner by the `except` clause. -/
def run_body (tmp fn mo lo : String)
    (loadR : String → Except String WhisperModel)
    (transR : WhisperModel → String → List (String × String) →
      Except String TResult) : List Ev :=
  Ev.spinner ::
    match loadR mo with
    | Except.error e => [Ev.errorMsg (errHead ++ e)]
    | Except.ok model =>
      match transR model tmp (build_options lo) with
      | Except.error e =>
        [Ev.transcribeCall tmp (build_options lo), Ev.errorMsg (errHead ++ e)]
      | Except.ok result =>
        [Ev.transcribeCall tmp (build_options lo),
         Ev.success successMsg,
         Ev.textArea ("文字起こし結果") result.text,
         Ev.dataframe,
         Ev.downloadButton (splitext_base fn ++ ("_transcript.txt")) result.text,
         Ev.downloadButton (splitext_base fn ++ ("_transcript_timestamps.txt"))
           (timestamp_text result.segments)]

/-- The transcription request handler, `src/app.py` lines 156–241: persist
the upload to a temp file, run the `try/except` body, then run the
`finally` cleanup.  The overall result is `error` only if an exception
escapes the handler (which would end the script run). -/
def run_transcription (fs0 : List String) (base fn mo lo : String)
    (loadR : String → Except String WhisperModel)
    (transR : WhisperModel → String → List (String × String) →
      Except String TResult) : Except String (List Ev × List String) :=
  let tmp := (persist fs0 base (file_ext_of fn)).1
  let fs1 := (persist fs0 base (file_ext_of fn)).2
  let body := run_body tmp fn mo lo loadR transR
  match (cleanup fs1 tmp).1 with
  | Except.ok fs2 => Except.ok (body, fs2)
  | Except.error e => Except.error e

/-- Device line of the sidebar, `src/app.py` lines 114–115. -/
def deviceInfoMsg (cuda : Bool) : String :=
  ("🖥️ 使用デバイス: ") ++ (if cuda then ("GPU (CUDA)") else ("CPU"))

/-- `src/app.py` line 117. -/
def gpuWarnMsg : String := "⚠️ GPUが検出されませんでした。処理が遅くなる可能性があります。"

/-- `src/app.py` line 245. -/
def startGuideMsg : String :=
  "👆 サイドバーでモデルを選択し、上のエリアにファイルをアップロードして開始してください。"

/-- One run of `main()` (`src/app.py` lines 67–252) as a UI-event trace plus
the final filesystem: title, ffmpeg check (stopping the script when it
fails), sidebar, upload control, and — when a file is uploaded (`some name`)
and the transcribe button was pressed — preview plus the transcription
handler.  The CSS/markdown-only calls are elided. -/
def main_trace (ffmpegExit : Int) (cuda : Bool) (uploaded : Option String)
    (btn : Bool) (fs0 : List String) (base mo lo : String)
    (loadR : String → Except String WhisperModel)
    (transR : WhisperModel → String → List (String × String) →
      Except String TResult) : Except String (List Ev × List String) :=
  let pre := [Ev.title]
  if (check_ffmpeg ffmpegExit).2 then
    Except.ok (pre ++ (check_ffmpeg ffmpegExit).1, fs0)
  else
    let sidebar :=
      [Ev.selectbox ("モデルサイズを選択"), Ev.selectbox ("言語を選択"),
       Ev.info (deviceInfoMsg cuda)] ++
        (if cuda then [] else [Ev.warning gpuWarnMsg])
    let upl := pre ++ (check_ffmpeg ffmpegExit).1 ++ sidebar ++ [Ev.fileUploader]
    match uploaded with
    | none => Except.ok (upl ++ [Ev.info startGuideMsg], fs0)
    | some name =>
      let head := upl ++ preview_events (file_ext_of name) ++ [Ev.button]
      if btn then
        match run_transcription fs0 base name mo lo loadR transR with
        | Except.ok (evs, fs') => Except.ok (head ++ evs, fs')
        | Except.error e => Except.error e
      else Except.ok (head, fs0)

/-! ### Helper lemmas -/

theorem natDigitsAux_length_pos (f n : Nat) : 1 ≤ (natDigitsAux f n).length := by
  cases f with
  | zero => simp [natDigitsAux]
  | succ f =>
    by_cases h : n < 10
    · simp [natDigitsAux, h]
    · simp [natDigitsAux, h]

theorem natDigitsAux_length_one (f n : Nat) (h : n < 10) :
    (natDigitsAux f n).length = 1 := by
  cases f <;> simp [natDigitsAux, h]

theorem natDigitsAux_length_two (f n : Nat) (h10 : 10 ≤ n) (h100 : n < 100)
    (hf : 1 ≤ f) : (natDigitsAux f n).length = 2 := by
  match f, hf with
  | f + 1, _ =>
    have hn : ¬ n < 10 := by omega
    simp [natDigitsAux, hn, natDigitsAux_length_one f (n / 10) (by omega)]

theorem natRepr_length_pos (n : Nat) : 1 ≤ (natRepr n).length :=
  natDigitsAux_length_pos n n

theorem natRepr_length_one (n : Nat) (h : n < 10) : (natRepr n).length = 1 :=
  natDigitsAux_length_one n n h

theorem natRepr_length_two (n : Nat) (h10 : 10 ≤ n) (h100 : n < 100) :
    (natRepr n).length = 2 :=
  natDigitsAux_length_two n n h10 h100 (by omega)

theorem natRepr_length_le_two (n : Nat) (h : n < 100) :
    (natRepr n).length ≤ 2 := by
  by_cases h10 : n < 10
  · simp [natRepr_length_one n h10]
  · simp [natRepr_length_two n (by omega) h]

theorem natRepr_length_le_three (n : Nat) (h : n < 1000) :
    (natRepr n).length ≤ 3 := by
  by_cases h100 : n < 100
  · have := natRepr_length_le_two n h100
    omega
  · obtain ⟨f, rfl⟩ : ∃ f, n = f + 1 := ⟨n - 1, by omega⟩
    have hn : ¬ f + 1 < 10 := by omega
    show (natDigitsAux (f + 1) (f + 1)).length ≤ 3
    simp only [natDigitsAux, hn, if_false, List.length_append,
      List.length_singleton]
    have := natDigitsAux_length_two f ((f + 1) / 10) (by omega) (by omega)
      (by omega)
    omega

theorem intRepr_length_pos (i : Int) : 1 ≤ (intRepr i).length := by
  unfold intRepr
  by_cases h : i < 0
  · simp only [h, if_true, String.length_append]
    have := natRepr_length_pos i.natAbs
    omega
  · simp only [h, if_false]
    exact natRepr_length_pos i.toNat

theorem intRepr_nonneg_eq (i : Int) (h : 0 ≤ i) : intRepr i = natRepr i.toNat := by
  simp [intRepr, not_lt.mpr h]

theorem pad2_length_ge_two (i : Int) : 2 ≤ (pad2 i).length := by
  have hpos := intRepr_length_pos i
  have hzero : (("0") : String).length = 1 := rfl
  by_cases h : (intRepr i).length < 2
  · simp only [pad2, h, if_true, String.length_append, hzero]
    omega
  · simp only [pad2, h, if_false]
    omega

theorem pad2_length_two (i : Int) (h0 : 0 ≤ i) (h : i < 100) :
    (pad2 i).length = 2 := by
  have heq := intRepr_nonneg_eq i h0
  have hle : (natRepr i.toNat).length ≤ 2 := natRepr_length_le_two _ (by omega)
  have hpos := natRepr_length_pos i.toNat
  have hzero : (("0") : String).length = 1 := rfl
  by_cases hl : (intRepr i).length < 2
  · simp only [pad2, hl, if_true, String.length_append, hzero]
    rw [heq] at hl ⊢
    omega
  · simp only [pad2, hl, if_false]
    rw [heq] at hl ⊢
    omega

theorem pad3_length_three (n : Nat) (h : n < 1000) : (pad3 n).length = 3 := by
  have hle := natRepr_length_le_three n h
  by_cases hl : (natRepr n).length < 3
  · simp only [pad3, hl, if_true, String.length_append, String.length_mk,
      List.length_replicate]
    omega
  · simp only [pad3, hl, if_false]
    omega

theorem rndHE_nonneg (q : ℚ) (h : 0 ≤ q) : 0 ≤ rndHE q := by
  have hf : 0 ≤ ⌊q⌋ := Int.floor_nonneg.mpr h
  simp only [rndHE]
  split_ifs <;> omega

theorem rndHE_le_floor_add_one (q : ℚ) : rndHE q ≤ ⌊q⌋ + 1 := by
  simp only [rndHE]
  split_ifs <;> omega

theorem rndHE_intCast (k : Int) : rndHE ((k : ℚ)) = k := by
  simp only [rndHE, Int.floor_intCast, sub_self]
  norm_num

/-- Evaluation shape of `format_timestamp` for a non-negative rounded
seconds value. -/
theorem format_timestamp_eval (seconds : ℚ) (m1 t : Int)
    (hm1 : ⌊seconds / 60⌋ = m1)
    (ht : rndHE ((seconds - 60 * (m1 : ℚ)) * 1000) = t)
    (ht0 : 0 ≤ t) :
    format_timestamp seconds =
      pad2 (Int.fdiv m1 60) ++ (":") ++ pad2 (m1 - 60 * Int.fdiv m1 60)
        ++ (":") ++ (pad2 (t / 1000) ++ (".") ++ pad3 (t % 1000).toNat) := by
  simp only [format_timestamp, fmt63, hm1, ht]
  rw [if_neg (not_lt.mpr ht0)]

theorem format_ts_zero : format_timestamp 0 = "00:00:00.000" := by
  have h := format_timestamp_eval 0 0 0 (by norm_num)
    (by
      have harg : ((0 : ℚ) - 60 * ((0 : Int) : ℚ)) * 1000 = (((0 : Int)) : ℚ) := by
        norm_num
      rw [harg, rndHE_intCast])
    (by norm_num)
  rw [h]; decide

theorem format_ts_one : format_timestamp 1 = "00:00:01.000" := by
  have h := format_timestamp_eval 1 0 1000 (by norm_num)
    (by
      have harg : ((1 : ℚ) - 60 * ((0 : Int) : ℚ)) * 1000 = (((1000 : Int)) : ℚ) := by
        norm_num
      rw [harg, rndHE_intCast])
    (by norm_num)
  rw [h]; decide

theorem format_ts_two_and_half : format_timestamp (2.5 : ℚ) = "00:00:02.500" := by
  have h := format_timestamp_eval (2.5 : ℚ) 0 2500 (by norm_num)
    (by
      have harg : ((2.5 : ℚ) - 60 * ((0 : Int) : ℚ)) * 1000 = (((2500 : Int)) : ℚ) := by
        norm_num
      rw [harg, rndHE_intCast])
    (by norm_num)
  rw [h]; decide

theorem format_ts_long : format_timestamp (3661.5 : ℚ) = "01:01:01.500" := by
  have h := format_timestamp_eval (3661.5 : ℚ) 61 1500 (by norm_num)
    (by
      have harg : ((3661.5 : ℚ) - 60 * ((61 : Int) : ℚ)) * 1000 = (((1500 : Int)) : ℚ) := by
        norm_num
      rw [harg, rndHE_intCast])
    (by norm_num)
  rw [h]; decide

/-- The handler always completes normally: the temp file is present when the
`finally` block runs (nothing in the `try` body touches it), so `cleanup`
takes its guarded-unlink branch successfully. -/
theorem run_transcription_ok (fs0 : List String) (base fn mo lo : String)
    (loadR : String → Except String WhisperModel)
    (transR : WhisperModel → String → List (String × String) →
      Except String TResult) :
    run_transcription fs0 base fn mo lo loadR transR =
      Except.ok
        (run_body (persist fs0 base (file_ext_of fn)).1 fn mo lo loadR transR,
         ((persist fs0 base (file_ext_of fn)).2).filter
           (fun q => q != (persist fs0 base (file_ext_of fn)).1)) := by
  simp [run_transcription, cleanup, os_unlink, persist]

theorem foldl_append_concat (segs : List Segment) (init : String) :
    segs.foldl (fun acc sg => acc ++ seg_line sg) init =
      init ++ concat_lines (segs.map seg_line) := by
  induction segs generalizing init with
  | nil => simp [concat_lines]
  | cons a l ih =>
    simp only [List.foldl_cons, List.map_cons, concat_lines, List.foldr_cons, ih]
    rw [String.append_assoc]

/-! ### Claim theorems -/

/-- C1: for every transcription request whose persist step completes, the
temporary file no longer exists after the request completes, on every exit
path — the handler returns normally for every outcome of load/transcribe
(`loadR`/`transR` arbitrary, so both the success path and the caught-failure
path are covered) and the temp path is not in the final filesystem. -/
theorem C1_temp_file_deleted_on_all_paths : ∀ (fs0 : List String)
    (base fn mo lo : String)
    (loadR : String → Except String WhisperModel)
    (transR : WhisperModel → String → List (String × String) →
      Except String TResult),
    ∃ evs fs', run_transcription fs0 base fn mo lo loadR transR =
        Except.ok (evs, fs') ∧
      (persist fs0 base (file_ext_of fn)).1 ∉ fs' := by
  intro fs0 base fn mo lo loadR transR
  rw [run_transcription_ok]
  exact ⟨_, _, rfl, by simp [List.mem_filter]⟩

/-- C1 witness: a concrete failing request still ends with the temp file
gone. -/
theorem C1_witness : ∃ evs fs',
    run_transcription [] ("t") ("a.mp3") ("base") ("")
        (fun _ => Except.error ("x")) (fun _ _ _ => Except.error ("y")) =
      Except.ok (evs, fs') ∧
    (persist [] ("t") (file_ext_of ("a.mp3"))).1 ∉ fs' :=
  C1_temp_file_deleted_on_all_paths [] ("t") ("a.mp3") ("base") ("")
    (fun _ => Except.error ("x")) (fun _ _ _ => Except.error ("y"))

/-- C2: an exception raised during model load (first conjunct) or during
transcribe (second conjunct) is caught — the handler still returns
`Except.ok`, so nothing propagates and the process survives — and is
reported as the failure banner `errHead ++ e` containing the underlying
error text `e`, with no success banner in the trace. -/
theorem C2_exceptions_caught_and_reported (fs0 : List String)
    (base fn mo lo e : String)
    (loadR : String → Except String WhisperModel)
    (transR : WhisperModel → String → List (String × String) →
      Except String TResult) :
    (loadR mo = Except.error e →
      ∃ evs fs', run_transcription fs0 base fn mo lo loadR transR =
          Except.ok (evs, fs') ∧
        Ev.errorMsg (errHead ++ e) ∈ evs ∧ ∀ msg, Ev.success msg ∉ evs) ∧
    (∀ model, loadR mo = Except.ok model →
      transR model (persist fs0 base (file_ext_of fn)).1 (build_options lo) =
        Except.error e →
      ∃ evs fs', run_transcription fs0 base fn mo lo loadR transR =
          Except.ok (evs, fs') ∧
        Ev.errorMsg (errHead ++ e) ∈ evs ∧ ∀ msg, Ev.success msg ∉ evs) := by
  constructor
  · intro hl
    rw [run_transcription_ok]
    refine ⟨_, _, rfl, ?_, ?_⟩
    · simp [run_body, hl]
    · intro msg
      simp [run_body, hl]
  · intro model hl ht
    rw [run_transcription_ok]
    refine ⟨_, _, rfl, ?_, ?_⟩
    · simp [run_body, hl, ht]
    · intro msg
      simp [run_body, hl, ht]

/-- C2 witness: a concrete transcribe failure is caught and reported. -/
theorem C2_witness : ∃ evs fs',
    run_transcription [] ("t") ("a.mp3") ("base") ("")
        (fun _ => Except.ok (load_whisper_model false ("base")))
        (fun _ _ _ => Except.error ("boom")) = Except.ok (evs, fs') ∧
      Ev.errorMsg (errHead ++ ("boom")) ∈ evs ∧ ∀ msg, Ev.success msg ∉ evs :=
  (C2_exceptions_caught_and_reported [] ("t") ("a.mp3") ("base") ("") ("boom")
      (fun _ => Except.ok (load_whisper_model false ("base")))
      (fun _ _ _ => Except.error ("boom"))).2
    (load_whisper_model false ("base")) rfl rfl

/-- C3: if the ffmpeg availability check fails (`ffmpegExit ≠ 0`) the script
stops right after the error banner — the trace contains no upload control
and no transcription attempt, and the filesystem is untouched; conversely
any trace containing the upload control comes from a run whose check
passed, and in it the check marker precedes the upload control. -/
theorem C3_ffmpeg_check_gates_upload (ffmpegExit : Int) (cuda : Bool)
    (uploaded : Option String) (btn : Bool) (fs0 : List String)
    (base mo lo : String)
    (loadR : String → Except String WhisperModel)
    (transR : WhisperModel → String → List (String × String) →
      Except String TResult) :
    (ffmpegExit ≠ 0 →
      main_trace ffmpegExit cuda uploaded btn fs0 base mo lo loadR transR =
        Except.ok ([Ev.title, Ev.errorMsg ffmpegMissingMsg, Ev.stopped], fs0) ∧
      ∀ evs fs',
        main_trace ffmpegExit cuda uploaded btn fs0 base mo lo loadR transR =
          Except.ok (evs, fs') →
        Ev.fileUploader ∉ evs ∧ (∀ p o, Ev.transcribeCall p o ∉ evs) ∧
          fs' = fs0) ∧
    (∀ evs fs',
      main_trace ffmpegExit cuda uploaded btn fs0 base mo lo loadR transR =
        Except.ok (evs, fs') →
      Ev.fileUploader ∈ evs →
      ffmpegExit = 0 ∧
        ∃ l2, evs = Ev.title :: Ev.ffmpegChecked :: l2 ∧ Ev.fileUploader ∈ l2) := by
  constructor
  · intro hne
    have hmain : main_trace ffmpegExit cuda uploaded btn fs0 base mo lo loadR
        transR =
        Except.ok ([Ev.title, Ev.errorMsg ffmpegMissingMsg, Ev.stopped], fs0) := by
      simp [main_trace, check_ffmpeg, hne]
    refine ⟨hmain, ?_⟩
    intro evs fs' h
    rw [hmain] at h
    simp only [Except.ok.injEq, Prod.mk.injEq] at h
    obtain ⟨h1, h2⟩ := h
    subst h1
    subst h2
    refine ⟨by simp, ?_, rfl⟩
    intro p o
    simp
  · intro evs fs' h hup
    by_cases hff : ffmpegExit = 0
    · refine ⟨hff, ?_⟩
      subst hff
      cases uploaded with
      | none =>
        simp only [main_trace, check_ffmpeg] at h
        norm_num at h
        obtain ⟨h1, _⟩ := h
        subst h1
        exact ⟨_, rfl, by cases cuda <;> simp⟩
      | some name =>
        cases btn with
        | false =>
          simp only [main_trace, check_ffmpeg] at h
          norm_num at h
          obtain ⟨h1, _⟩ := h
          subst h1
          exact ⟨_, rfl, by cases cuda <;> simp⟩
        | true =>
          simp only [main_trace, check_ffmpeg, run_transcription_ok] at h
          norm_num at h
          obtain ⟨h1, _⟩ := h
          subst h1
          exact ⟨_, rfl, by cases cuda <;> simp⟩
    · exfalso
      have hmain : main_trace ffmpegExit cuda uploaded btn fs0 base mo lo loadR
          transR =
          Except.ok ([Ev.title, Ev.errorMsg ffmpegMissingMsg, Ev.stopped], fs0) := by
        simp [main_trace, check_ffmpeg, hff]
      rw [hmain] at h
      simp only [Except.ok.injEq, Prod.mk.injEq] at h
      obtain ⟨h1, _⟩ := h
      subst h1
      simp at hup

/-- C3 witness: with a failing check (exit code 1) the run stops at the
error banner. -/
theorem C3_witness : (1 : Int) ≠ 0 ∧
    main_trace 1 false none false [] ("t") ("base") ("")
        (fun _ => Except.error ("x")) (fun _ _ _ => Except.error ("y")) =
      Except.ok ([Ev.title, Ev.errorMsg ffmpegMissingMsg, Ev.stopped], []) :=
  ⟨by decide,
    ((C3_ffmpeg_check_gates_upload 1 false none false [] ("t") ("base") ("")
          (fun _ => Except.error ("x")) (fun _ _ _ => Except.error ("y"))).1
        (by decide)).1⟩

/-- C4: `format_timestamp` maps 0 to `"00:00:00.000"` and 3661.5 to
`"01:01:01.500"`, and for every non-negative input the output is
`HH:MM:SS.mmm` with the hours and minutes fields zero-padded to (at least)
2 digits — minutes exactly 2 since minutes < 60 — and the seconds field
with a 2-digit integer part and exactly 3 decimal places. -/
theorem C4_format_timestamp_spec :
    format_timestamp 0 = "00:00:00.000" ∧
    format_timestamp (3661.5 : ℚ) = "01:01:01.500" ∧
    ∀ q : ℚ, 0 ≤ q →
      ∃ (h m si : Int) (fr : Nat),
        format_timestamp q =
          pad2 h ++ (":") ++ pad2 m ++ (":")
            ++ (pad2 si ++ (".") ++ pad3 fr) ∧
        2 ≤ (pad2 h).length ∧ (pad2 m).length = 2 ∧
        (pad2 si).length = 2 ∧ (pad3 fr).length = 3 := by
  refine ⟨format_ts_zero, format_ts_long, ?_⟩
  intro q hq
  have hm1 : (0 : Int) ≤ ⌊q / 60⌋ := Int.floor_nonneg.mpr (by positivity)
  have hs0 : 0 ≤ q - 60 * ((⌊q / 60⌋ : Int) : ℚ) := by
    have h1 : ((⌊q / 60⌋ : Int) : ℚ) ≤ q / 60 := Int.floor_le _
    linarith
  have hs60 : q - 60 * ((⌊q / 60⌋ : Int) : ℚ) < 60 := by
    have h2 : q / 60 < (⌊q / 60⌋ : Int) + 1 := Int.lt_floor_add_one _
    linarith
  have ht0 : 0 ≤ rndHE ((q - 60 * ((⌊q / 60⌋ : Int) : ℚ)) * 1000) :=
    rndHE_nonneg _ (by positivity)
  have ht1 : rndHE ((q - 60 * ((⌊q / 60⌋ : Int) : ℚ)) * 1000) ≤ 60000 := by
    have hfl : ⌊(q - 60 * ((⌊q / 60⌋ : Int) : ℚ)) * 1000⌋ < 60000 := by
      rw [Int.floor_lt]
      push_cast
      linarith
    have := rndHE_le_floor_add_one ((q - 60 * ((⌊q / 60⌋ : Int) : ℚ)) * 1000)
    omega
  have heval := format_timestamp_eval q ⌊q / 60⌋
    (rndHE ((q - 60 * ((⌊q / 60⌋ : Int) : ℚ)) * 1000)) rfl rfl ht0
  refine ⟨_, _, _, _, heval, pad2_length_ge_two _, ?_, ?_, ?_⟩
  · have hfd : Int.fdiv ⌊q / 60⌋ 60 = ⌊q / 60⌋ / 60 :=
      Int.fdiv_eq_ediv _ (by norm_num)
    rw [hfd]
    exact pad2_length_two _ (by omega) (by omega)
  · exact pad2_length_two _ (by omega) (by omega)
  · exact pad3_length_three _ (by omega)

/-- C4 witness: the general field-shape statement instantiated at 0. -/
theorem C4_witness : (0 : ℚ) ≤ 0 ∧
    ∃ (h m si : Int) (fr : Nat),
      format_timestamp 0 =
        pad2 h ++ (":") ++ pad2 m ++ (":")
          ++ (pad2 si ++ (".") ++ pad3 fr) ∧
      2 ≤ (pad2 h).length ∧ (pad2 m).length = 2 ∧
      (pad2 si).length = 2 ∧ (pad3 fr).length = 3 :=
  ⟨le_refl 0, C4_format_timestamp_spec.2.2 0 (le_refl 0)⟩

/-- C5: on the two-segment example the timestamped transcript is exactly the
claimed string, and in general `timestamp_text` is the in-order
concatenation of one `seg_line` per segment. -/
theorem C5_timestamped_transcript_concat :
    timestamp_text [⟨0, 1, ("a")⟩, ⟨1, (2.5 : ℚ), ("b")⟩] =
      "[00:00:00.000 --> 00:00:01.000] a\n[00:00:01.000 --> 00:00:02.500] b\n" ∧
    ∀ segs : List Segment,
      timestamp_text segs = concat_lines (segs.map seg_line) := by
  constructor
  · show ("") ++ seg_line ⟨0, 1, ("a")⟩ ++ seg_line ⟨1, (2.5 : ℚ), ("b")⟩ = _
    simp only [seg_line, format_ts_zero, format_ts_one, format_ts_two_and_half]
    decide
  · intro segs
    rw [timestamp_text, foldl_append_concat]
    exact String.empty_append _

/-- C6: with an empty language hint the options dict is empty (no
`language` key at all — the auto-detect path), and with any non-empty hint,
such as `"ja"`, it is exactly `{"language": hint}`. -/
theorem C6_language_option_passthrough :
    build_options ("") = [] ∧
    (build_options ("")).lookup ("language") = none ∧
    build_options ("ja") = [(("language"), ("ja"))] ∧
    ∀ lang, lang ≠ "" → build_options lang = [(("language"), lang)] := by
  refine ⟨rfl, rfl, by decide, ?_⟩
  intro lang h
  simp [build_options, h]

/-- C6 witness: the non-empty case at `"ja"`. -/
theorem C6_witness : ("ja" : String) ≠ "" ∧
    build_options ("ja") = [(("language"), ("ja"))] :=
  ⟨by decide, C6_language_option_passthrough.2.2.2 ("ja") (by decide)⟩

/-- C7: from any cache state, after a first request for a model size the
second request for the same size does not invoke the load path (flag
`false`) and resolves the same instance; so at most one load happens across
the two requests. -/
theorem C7_model_cache_single_load : ∀ (load : String → WhisperModel)
    (cache : List (String × WhisperModel)) (key : String),
    (get_or_load load (get_or_load load cache key).2.1 key).2.2 = false ∧
    (get_or_load load (get_or_load load cache key).2.1 key).1 =
      (get_or_load load cache key).1 := by
  intro load cache key
  cases h : cache.lookup key with
  | some m => simp [get_or_load, h]
  | none => simp [get_or_load, h, List.lookup]

/-- C8 counterexample: for the accepted upload named `"A.MP3"` the text
after the last dot is `"MP3"`, but the temp-file suffix is the lowercased
`".mp3"`, not `".MP3"` — so the suffix does not match the text after the
last dot as the claim states it. -/
theorem C8_counterexample :
    String.mk (lastD (splitOnChar '.' ("A.MP3").data) []) = ("MP3") ∧
    temp_suffix (file_ext_of ("A.MP3")) ≠ (".") ++ ("MP3") ∧
    temp_suffix (file_ext_of ("A.MP3")) = (".mp3") ∧
    (persist [] ("t") (file_ext_of ("A.MP3"))).1 = ("t.mp3") := by decide

/-- C8 (amended): the persist step writes the uploaded bytes to a
temporary file whose suffix is a dot followed by the lowercased text after
the last dot of the original filename, and — under the `tempfile` library's
fresh-name guarantee, modelled as the freshness hypothesis — the temp path
is new and is recorded in the filesystem. -/
theorem C8_amended_suffix_lowercase : ∀ (fs : List String) (base name : String),
    (persist fs base (file_ext_of name)).1 =
      base ++ temp_suffix
        (String.mk ((lastD (splitOnChar '.' name.data) []).map Char.toLower)) ∧
    (base ++ temp_suffix (file_ext_of name) ∉ fs →
      (persist fs base (file_ext_of name)).1 ∉ fs ∧
      (persist fs base (file_ext_of name)).1 ∈
        (persist fs base (file_ext_of name)).2) := by
  intro fs base name
  exact ⟨rfl, fun h => ⟨h, by simp [persist]⟩⟩

/-- C8 witness: the amended statement at the counterexample filename. -/
theorem C8_witness :
    (("t") ++ temp_suffix (file_ext_of ("A.MP3")) ∉ ([] : List String)) ∧
    ((persist [] ("t") (file_ext_of ("A.MP3"))).1 ∉ ([] : List String) ∧
      (persist [] ("t") (file_ext_of ("A.MP3"))).1 ∈
        (persist [] ("t") (file_ext_of ("A.MP3"))).2) :=
  ⟨by decide, (C8_amended_suffix_lowercase [] ("t") ("A.MP3")).2 (by decide)⟩

/-- C9: the preview widget is chosen by the lowercased last extension of
the filename: the four video extensions get the video player, every other
extension gets the audio player whose MIME format string is `"audio/"`
followed by that extension. -/
theorem C9_preview_widget_selection : ∀ name : String,
    file_ext_of name =
      String.mk ((lastD (splitOnChar '.' name.data) []).map Char.toLower) ∧
    (file_ext_of name ∈ [("mp4"), ("mov"), ("mkv"), ("webm")] →
      preview_events (file_ext_of name) = [Ev.video]) ∧
    (file_ext_of name ∉ [("mp4"), ("mov"), ("mkv"), ("webm")] →
      preview_events (file_ext_of name) =
        [Ev.audio (("audio/") ++ file_ext_of name)]) := by
  intro name
  exact ⟨rfl, fun h => by simp [preview_events, h],
    fun h => by simp [preview_events, h]⟩

/-- C9 witness: `"movie.MP4"` (uppercase extension, lowercased to `mp4`)
gets the video player. -/
theorem C9_witness :
    file_ext_of ("movie.MP4") ∈ [("mp4"), ("mov"), ("mkv"), ("webm")] ∧
    preview_events (file_ext_of ("movie.MP4")) = [Ev.video] :=
  ⟨by decide, (C9_preview_widget_selection ("movie.MP4")).2.1 (by decide)⟩

/-- C10: the cleanup invokes `os.unlink` exactly when the temp file exists
(the guard), its outcome is always `ok` (never a raised missing-file
error), and when the file is already gone the unlink — which would raise
`FileNotFoundError` — is not invoked at all. -/
theorem C10_cleanup_guard : ∀ (fs : List String) (p : String),
    ((cleanup fs p).2 = true ↔ p ∈ fs) ∧
    (∃ fs', (cleanup fs p).1 = Except.ok fs') ∧
    (p ∉ fs →
      (cleanup fs p).1 = Except.ok fs ∧ (cleanup fs p).2 = false ∧
        os_unlink fs p = Except.error ("FileNotFoundError")) := by
  intro fs p
  by_cases h : p ∈ fs
  · exact ⟨by simp [cleanup, h], ⟨fs.filter (fun q => q != p),
      by simp [cleanup, os_unlink, h]⟩, fun hn => absurd h hn⟩
  · exact ⟨by simp [cleanup, h], ⟨fs, by simp [cleanup, h]⟩,
      fun _ => ⟨by simp [cleanup, h], by simp [cleanup, h],
        by simp [os_unlink, h]⟩⟩

/-- C10 witness: cleanup on a missing path is a no-op and does not invoke
the unlink that would fail. -/
theorem C10_witness : (("x") ∉ ([] : List String)) ∧
    ((cleanup [] ("x")).1 = Except.ok [] ∧ (cleanup [] ("x")).2 = false ∧
      os_unlink [] ("x") = Except.error ("FileNotFoundError")) :=
  ⟨by decide, (C10_cleanup_guard [] ("x")).2.2 (by decide)⟩
